import Mathlib

/-!
# Button component (`src/components/Button.js`)

A shallow embedding of the `Button` class component: its configuration record
(`propTypes` / `defaultProps`), the instance fields set by the constructor and
the lifecycle hooks, the render tree built by `renderContent` and `render`, and
the effects of its event handlers, recorded as traces.

Values that come from modules outside the file (`styles`, `themeColors`,
`CONST`, `StyleUtils`) are kept symbolic: a style-sheet entry is its name, a
theme colour is its name, and the Enter shortcut configuration and
`parseStyleAsArray` are parameters.
-/

namespace ButtonJs

/-! ## Data model -/

/-- Entries of the imported style sheet `styles` that the component refers to, by name. -/
inductive StyleName
  | cursorDisabled
  | pointerEventsNone
  | buttonText
  | buttonSmallText
  | buttonMediumText
  | buttonLargeText
  | buttonSuccessText
  | buttonDangerText
  | flexRow
  | alignItemsCenter
  | mr1
  | button
  | buttonSmall
  | buttonMedium
  | buttonLarge
  | buttonSuccess
  | buttonDanger
  | buttonSuccessDisabled
  | buttonDangerDisabled
  | buttonDisable
  | buttonSuccessHovered
  | buttonDangerHovered
  | noRightBorderRadius
  | noLeftBorderRadius
  deriving DecidableEq, Repr

/-- A style object: an entry of `styles`, the literal `{}` of line 207, or an
object handed in by the caller (identified by a number). -/
inductive Style
  | sheet (n : StyleName)
  | emptyObject
  | caller (n : Nat)
  deriving DecidableEq, Repr

/-- One slot of a JavaScript style array: a style object, `undefined` (the
else-branch of `c ? s : undefined`) or `false` (the value of `c && s` when `c`
is false). -/
inductive StyleEntry
  | obj (s : Style)
  | undef
  | jsFalse
  deriving DecidableEq, Repr

/-- Value of a `style` attribute: a single object or an array of slots. -/
inductive StyleAttr
  | one (s : Style)
  | many (l : List StyleEntry)
  deriving DecidableEq, Repr

/-- Colours of `themeColors` that the component refers to, by name. -/
inductive ThemeColor
  | textReversed
  | heading
  deriving DecidableEq, Repr

/-- A caller-supplied function; `noop` is the `() => {}` of `defaultProps`. -/
inductive Callback
  | noop
  | fn (n : Nat)
  deriving DecidableEq, Repr

/-- The `style` prop: `PropTypes.oneOfType([arrayOf(object), object])`. -/
inductive StyleProp
  | array (l : List Style)
  | object (s : Style)
  deriving DecidableEq, Repr

/-- The configuration record, field by field as in `propTypes`. `icon` and
`ContentComponent` are function-typed props whose absent values (`null`,
`undefined`) are `none`. -/
structure Props where
  text : String
  icon : Option Nat
  small : Bool
  large : Bool
  medium : Bool
  isLoading : Bool
  isDisabled : Bool
  onPress : Callback
  onLongPress : Callback
  onPressIn : Callback
  onPressOut : Callback
  pressOnEnter : Bool
  enterKeyEventListenerPriority : Int
  style : StyleProp
  innerStyles : List Style
  textStyles : List Style
  success : Bool
  danger : Bool
  ContentComponent : Option Nat
  shouldRemoveRightBorderRadius : Bool
  shouldRemoveLeftBorderRadius : Bool
  shouldEnableHapticFeedback : Bool
  deriving DecidableEq, Repr

/-- The record `defaultProps` (lines 85-108). -/
def defaultProps : Props where
  text := ""
  icon := none
  isLoading := false
  isDisabled := false
  small := false
  large := false
  medium := false
  onPress := Callback.noop
  onLongPress := Callback.noop
  onPressIn := Callback.noop
  onPressOut := Callback.noop
  pressOnEnter := false
  enterKeyEventListenerPriority := 0
  style := StyleProp.array []
  innerStyles := []
  textStyles := []
  success := false
  danger := false
  ContentComponent := none
  shouldRemoveRightBorderRadius := false
  shouldRemoveLeftBorderRadius := false
  shouldEnableHapticFeedback := false

/-- A component instance (`this`): its object identity, the current props, the
field `additionalStyles` written by the constructor and the field
`unsubscribe` written by `componentDidMount` (the token of the listener the
stored function removes; `none` while the field is undefined). -/
structure Button where
  self : Nat
  props : Props
  additionalStyles : List Style
  unsubscribe : Option Nat
  deriving DecidableEq, Repr

/-- Nodes of the render tree below the `Pressable`. -/
inductive Element
  | contentComponent (c : Nat)
  | activityIndicator (color : ThemeColor)
  | text (selectable : Bool) (style : StyleAttr) (child : String)
  | icon (src : Nat) (fill : ThemeColor) (small : Bool)
  | view (style : StyleAttr) (children : List Element)
  | opacityView (shouldDim : Bool) (style : StyleAttr) (child : Element)

/-- An observable effect of running a handler: a haptic pulse, a call of a
caller-supplied callback with its argument (`none`: called with no argument),
or whatever the listener `n` of some other subscriber does. -/
inductive Effect
  | hapticTrigger
  | call (cb : Callback) (arg : Option Nat)
  | foreign (n : Nat)
  deriving DecidableEq, Repr

/-- The `Pressable` element returned by `render`: its attributes and its
render-prop child `({pressed, hovered}) => ...`. -/
structure Pressable where
  onPress : Nat → List Effect
  onLongPress : Nat → List Effect
  onPressIn : Callback
  onPressOut : Callback
  disabled : Bool
  style : StyleAttr
  children : Bool → Bool → Element

/-! ## Constructor and rendering -/

/-- The constructor (lines 111-116): stores the props and caches
`parseStyleAsArray(this.props.style)` in `additionalStyles`. The helper lives
in `StyleUtils`, outside the file, and is a parameter. -/
def Button.constructor (parseStyleAsArray : StyleProp → List Style) (self : Nat) (props : Props) : Button where
  self := self
  props := props
  additionalStyles := parseStyleAsArray props.style
  unsubscribe := none

/-- The framework handing an instance new props before a re-render: only
`this.props` changes, instance fields stay. -/
def Button.receiveProps (this : Button) (props : Props) : Button :=
  { this with props := props }

/-- The style array of the label `Text` (lines 155-164). -/
def Button.textStyle (this : Button) : List StyleEntry :=
  [ StyleEntry.obj (Style.sheet StyleName.pointerEventsNone),
    StyleEntry.obj (Style.sheet StyleName.buttonText),
    if this.props.small then StyleEntry.obj (Style.sheet StyleName.buttonSmallText) else StyleEntry.jsFalse,
    if this.props.medium then StyleEntry.obj (Style.sheet StyleName.buttonMediumText) else StyleEntry.jsFalse,
    if this.props.large then StyleEntry.obj (Style.sheet StyleName.buttonLargeText) else StyleEntry.jsFalse,
    if this.props.success then StyleEntry.obj (Style.sheet StyleName.buttonSuccessText) else StyleEntry.jsFalse,
    if this.props.danger then StyleEntry.obj (Style.sheet StyleName.buttonDangerText) else StyleEntry.jsFalse ]
  ++ this.props.textStyles.map StyleEntry.obj

/-- The label element `textComponent` (lines 152-168). -/
def Button.textComponent (this : Button) : Element :=
  Element.text false (StyleAttr.many this.textStyle) this.props.text

/-- The method `renderContent` (lines 142-186). -/
def Button.renderContent (this : Button) : Element :=
  match this.props.ContentComponent with
  | some c => Element.contentComponent c
  | none =>
    if this.props.isLoading then
      Element.activityIndicator ThemeColor.textReversed
    else
      match this.props.icon with
      | some src =>
        Element.view
          (StyleAttr.many [StyleEntry.obj (Style.sheet StyleName.flexRow),
                           StyleEntry.obj (Style.sheet StyleName.alignItemsCenter)])
          [ Element.view (StyleAttr.one (Style.sheet StyleName.mr1))
              [Element.icon src ThemeColor.heading this.props.small],
            this.textComponent ]
      | none => this.textComponent

/-- Picks `s` when `c` holds and `undefined` otherwise: `c ? s : undefined`. -/
def orUndefined (c : Bool) (s : StyleName) : StyleEntry :=
  if c then StyleEntry.obj (Style.sheet s) else StyleEntry.undef

/-- The style array of the `OpacityView` (lines 214-229). -/
def Button.opacityViewStyle (this : Button) (hovered : Bool) : List StyleEntry :=
  [ StyleEntry.obj (Style.sheet StyleName.button),
    orUndefined this.props.small StyleName.buttonSmall,
    orUndefined this.props.medium StyleName.buttonMedium,
    orUndefined this.props.large StyleName.buttonLarge,
    orUndefined this.props.success StyleName.buttonSuccess,
    orUndefined this.props.danger StyleName.buttonDanger,
    orUndefined (this.props.isDisabled && this.props.success) StyleName.buttonSuccessDisabled,
    orUndefined (this.props.isDisabled && this.props.danger) StyleName.buttonDangerDisabled,
    orUndefined (this.props.isDisabled && !this.props.danger && !this.props.success) StyleName.buttonDisable,
    orUndefined (this.props.success && hovered) StyleName.buttonSuccessHovered,
    orUndefined (this.props.danger && hovered) StyleName.buttonDangerHovered,
    orUndefined this.props.shouldRemoveRightBorderRadius StyleName.noRightBorderRadius,
    orUndefined this.props.shouldRemoveLeftBorderRadius StyleName.noLeftBorderRadius ]
  ++ this.props.innerStyles.map StyleEntry.obj

/-- The `onPress` arrow function of lines 191-196. -/
def Button.pressHandler (this : Button) (e : Nat) : List Effect :=
  (if this.props.shouldEnableHapticFeedback then [Effect.hapticTrigger] else [])
  ++ [Effect.call this.props.onPress (some e)]

/-- The `onLongPress` arrow function of lines 197-202. -/
def Button.longPressHandler (this : Button) (e : Nat) : List Effect :=
  (if this.props.shouldEnableHapticFeedback then [Effect.hapticTrigger] else [])
  ++ [Effect.call this.props.onLongPress (some e)]

/-- The style array of the `Pressable` (lines 206-209). -/
def Button.pressableStyle (this : Button) : List StyleEntry :=
  (if this.props.isDisabled then StyleEntry.obj (Style.sheet StyleName.cursorDisabled)
   else StyleEntry.obj Style.emptyObject)
  :: this.additionalStyles.map StyleEntry.obj

/-- The method `render` (lines 188-236). -/
def Button.render (this : Button) : Pressable where
  onPress := this.pressHandler
  onLongPress := this.longPressHandler
  onPressIn := this.props.onPressIn
  onPressOut := this.props.onPressOut
  disabled := this.props.isLoading || this.props.isDisabled
  style := StyleAttr.many this.pressableStyle
  children := fun pressed hovered =>
    Element.opacityView pressed (StyleAttr.many (this.opacityViewStyle hovered)) this.renderContent

/-! ## Keyboard-shortcut registry and lifecycle hooks -/

/-- One entry of `CONST.KEYBOARD_SHORTCUTS`: the fields the component reads.
`CONST` lives outside the file; the Enter entry is a parameter of
`componentDidMount`. -/
structure ShortcutConfig where
  shortcutKey : String
  descriptionKey : String
  modifiers : List String
  deriving DecidableEq, Repr

/-- What a registered listener runs: the arrow function of lines 126-131,
closed over the instance with identity `self`, or a listener of some other
subscriber. -/
inductive ListenerCallback
  | buttonEnter (self : Nat)
  | foreign (n : Nat)
  deriving DecidableEq, Repr

/-- A registered listener: its token and the seven arguments of
`KeyboardShortcut.subscribe` in call order. -/
structure Listener where
  id : Nat
  key : String
  callback : ListenerCallback
  descriptionKey : String
  modifiers : List String
  captureOnInputs : Bool
  shouldBubble : Bool
  priority : Int
  deriving DecidableEq, Repr

/-- The registry state: the listeners currently subscribed. -/
abbrev Registry := List Listener

/-- A token no listener of the registry carries. -/
def Registry.freshId (reg : Registry) : Nat :=
  (reg.map Listener.id).foldr max 0 + 1

/-- Modelled from the spec: `KeyboardShortcut.subscribe` of
`libs/KeyboardShortcut`, which is not part of the file. It adds one listener
built from its arguments and returns the function that removes that listener,
represented by the listener's token. -/
def KeyboardShortcut.subscribe (reg : Registry) (key : String) (callback : ListenerCallback)
    (descriptionKey : String) (modifiers : List String) (captureOnInputs shouldBubble : Bool)
    (priority : Int) : Registry × Nat :=
  (reg ++ [{ id := reg.freshId, key := key, callback := callback, descriptionKey := descriptionKey,
             modifiers := modifiers, captureOnInputs := captureOnInputs, shouldBubble := shouldBubble,
             priority := priority }],
   reg.freshId)

/-- Modelled from the spec: the function returned by `KeyboardShortcut.subscribe`
(not part of the file), applied to the registry: it removes exactly the
listener carrying the token. -/
def KeyboardShortcut.unsubscribe (reg : Registry) (token : Nat) : Registry :=
  reg.filter (fun l => l.id != token)

/-- A call made on the registry by a lifecycle hook. -/
inductive RegistryCall
  | subscribe (key : String) (callback : ListenerCallback) (descriptionKey : String)
      (modifiers : List String) (captureOnInputs shouldBubble : Bool) (priority : Int)
  | unsubscribe (token : Nat)
  deriving DecidableEq, Repr

/-- Outcome of a lifecycle hook: the instance, the registry, and the registry
calls the hook made, in order. -/
structure Lifecycle where
  this : Button
  registry : Registry
  calls : List RegistryCall
  deriving DecidableEq, Repr

/-- The method `componentDidMount` (lines 118-132). -/
def Button.componentDidMount (enter : ShortcutConfig) (this : Button) (reg : Registry) : Lifecycle :=
  if !this.props.pressOnEnter then
    { this := this, registry := reg, calls := [] }
  else
    let r := KeyboardShortcut.subscribe reg enter.shortcutKey (ListenerCallback.buttonEnter this.self)
      enter.descriptionKey enter.modifiers true false this.props.enterKeyEventListenerPriority
    { this := { this with unsubscribe := some r.2 },
      registry := r.1,
      calls := [RegistryCall.subscribe enter.shortcutKey (ListenerCallback.buttonEnter this.self)
        enter.descriptionKey enter.modifiers true false this.props.enterKeyEventListenerPriority] }

/-- The method `componentWillUnmount` (lines 134-140). -/
def Button.componentWillUnmount (this : Button) (reg : Registry) : Lifecycle :=
  match this.unsubscribe with
  | none => { this := this, registry := reg, calls := [] }
  | some token =>
    { this := this, registry := KeyboardShortcut.unsubscribe reg token,
      calls := [RegistryCall.unsubscribe token] }

/-- The listener that `componentDidMount` registers for the instance `self`
with the given priority. -/
def enterListener (enter : ShortcutConfig) (reg : Registry) (self : Nat) (priority : Int) :
    Listener :=
  { id := reg.freshId, key := enter.shortcutKey, callback := ListenerCallback.buttonEnter self,
    descriptionKey := enter.descriptionKey, modifiers := enter.modifiers,
    captureOnInputs := true, shouldBubble := false, priority := priority }

/-- A mount followed, after the props have become `p`, by an unmount: the
registry left by the two hooks and the calls made by the second. -/
def Button.mountThenUnmount (enter : ShortcutConfig) (this : Button) (p : Props)
    (reg : Registry) : Lifecycle :=
  ((this.componentDidMount enter reg).this.receiveProps p).componentWillUnmount
    (this.componentDidMount enter reg).registry

/-- The body of the Enter listener (lines 126-131), run on the instance as it
is when the key is pressed. -/
def Button.enterKeyHandler (this : Button) : List Effect :=
  if this.props.isDisabled || this.props.isLoading then []
  else [Effect.call this.props.onPress none]

/-- Runs a listener callback; `live` gives the present state of the instance
with a given identity. -/
def ListenerCallback.run (live : Nat → Option Button) : ListenerCallback → List Effect
  | ListenerCallback.buttonEnter self =>
    match live self with
    | some b => b.enterKeyHandler
    | none => []
  | ListenerCallback.foreign n => [Effect.foreign n]

/-- Modelled from the spec: the dispatcher of `libs/KeyboardShortcut` (not part
of the file). A key press runs the listeners subscribed for that key; the
result pairs each listener's token with the trace of its callback. -/
def KeyboardShortcut.dispatch (reg : Registry) (live : Nat → Option Button) (key : String) :
    List (Nat × List Effect) :=
  (reg.filter (fun l => l.key == key)).map (fun l => (l.id, l.callback.run live))

/-! ## Style resolution -/

/-- The style objects of an array that take part in resolution: `undefined`
and `false` slots are skipped. -/
def applied (l : List StyleEntry) : List Style :=
  l.filterMap (fun e => match e with
    | StyleEntry.obj s => some s
    | StyleEntry.undef => none
    | StyleEntry.jsFalse => none)

/-- Last-entry-wins resolution of a style list, the rule the GUI framework
applies to a style array. `defs s p` is the value style object `s` gives
property `p`, if any; the resolved value of `p` is that of the last entry
defining it. -/
def resolve (defs : Style → Nat → Option Nat) (l : List Style) (p : Nat) : Option Nat :=
  l.foldl (fun acc s => match defs s p with
    | some v => some v
    | none => acc) none

/-- The fixed order of the style-sheet entries in the `OpacityView` array. -/
def opacityViewOrder : List StyleName :=
  [ StyleName.button, StyleName.buttonSmall, StyleName.buttonMedium, StyleName.buttonLarge,
    StyleName.buttonSuccess, StyleName.buttonDanger, StyleName.buttonSuccessDisabled,
    StyleName.buttonDangerDisabled, StyleName.buttonDisable, StyleName.buttonSuccessHovered,
    StyleName.buttonDangerHovered, StyleName.noRightBorderRadius, StyleName.noLeftBorderRadius ]

/-- The fixed order of the style-sheet entries in the label `Text` array. -/
def textOrder : List StyleName :=
  [ StyleName.pointerEventsNone, StyleName.buttonText, StyleName.buttonSmallText,
    StyleName.buttonMediumText, StyleName.buttonLargeText, StyleName.buttonSuccessText,
    StyleName.buttonDangerText ]

/-- The condition guarding each style-sheet entry of the `OpacityView` array
(lines 215-227); entries that are not in the array have none. -/
def Button.opacityViewCondition (this : Button) (hovered : Bool) : StyleName → Bool
  | StyleName.button => true
  | StyleName.buttonSmall => this.props.small
  | StyleName.buttonMedium => this.props.medium
  | StyleName.buttonLarge => this.props.large
  | StyleName.buttonSuccess => this.props.success
  | StyleName.buttonDanger => this.props.danger
  | StyleName.buttonSuccessDisabled => this.props.isDisabled && this.props.success
  | StyleName.buttonDangerDisabled => this.props.isDisabled && this.props.danger
  | StyleName.buttonDisable => this.props.isDisabled && !this.props.danger && !this.props.success
  | StyleName.buttonSuccessHovered => this.props.success && hovered
  | StyleName.buttonDangerHovered => this.props.danger && hovered
  | StyleName.noRightBorderRadius => this.props.shouldRemoveRightBorderRadius
  | StyleName.noLeftBorderRadius => this.props.shouldRemoveLeftBorderRadius
  | _ => false

/-- The condition guarding each style-sheet entry of the label array (lines
156-162); entries that are not in the array have none. -/
def Button.textCondition (this : Button) : StyleName → Bool
  | StyleName.pointerEventsNone => true
  | StyleName.buttonText => true
  | StyleName.buttonSmallText => this.props.small
  | StyleName.buttonMediumText => this.props.medium
  | StyleName.buttonLargeText => this.props.large
  | StyleName.buttonSuccessText => this.props.success
  | StyleName.buttonDangerText => this.props.danger
  | _ => false

/-- The slots of an element's `style` attribute; a single object counts as a
one-slot array, and elements that are given no style have none. -/
def Element.styleEntries : Element → List StyleEntry
  | Element.text _ (StyleAttr.many l) _ => l
  | Element.text _ (StyleAttr.one s) _ => [StyleEntry.obj s]
  | Element.view (StyleAttr.many l) _ => l
  | Element.view (StyleAttr.one s) _ => [StyleEntry.obj s]
  | Element.opacityView _ (StyleAttr.many l) _ => l
  | Element.opacityView _ (StyleAttr.one s) _ => [StyleEntry.obj s]
  | _ => []

mutual
/-- The `Text` nodes of a render tree, in document order. -/
def Element.texts : Element → List Element
  | Element.text selectable style child => [Element.text selectable style child]
  | Element.view _ children => Element.textsOfList children
  | Element.opacityView _ _ child => child.texts
  | Element.contentComponent _ => []
  | Element.activityIndicator _ => []
  | Element.icon _ _ _ => []
/-- The `Text` nodes of a list of render trees, in document order. -/
def Element.textsOfList : List Element → List Element
  | [] => []
  | c :: cs => c.texts ++ Element.textsOfList cs
end

/-- The entries of a fixed order that come before the first occurrence of `n`. -/
def entriesBefore : List StyleName → StyleName → List StyleName
  | [], _ => []
  | x :: xs, n => if x = n then [] else x :: entriesBefore xs n

/-- The entries of a fixed order that come after the first occurrence of `n`. -/
def entriesAfter : List StyleName → StyleName → List StyleName
  | [], _ => []
  | x :: xs, n => if x = n then xs else entriesAfter xs n

/-- In the list `l`, entry `d` comes after an occurrence of entry `s`, and
wherever `d` defines a property its value overrides everything before it: the
resolved value is decided by `d` and the entries after it, and it is the value
`d` gives when no entry after `d` defines the property. -/
def WinsOver (defs : Style → Nat → Option Nat) (l : List Style) (s d : Style) : Prop :=
  ∃ pre post, l = pre ++ d :: post ∧ s ∈ pre ∧
    ∀ p v, defs d p = some v →
      resolve defs (pre ++ [d]) p = some v ∧
      resolve defs l p = resolve defs (d :: post) p ∧
      ((∀ x ∈ post, defs x p = none) → resolve defs l p = some v)

/-- The helper `parseStyleAsArray` as its name and the prop type of `style`
describe it: an array is kept, a single object becomes a one-element array.
Used to instantiate the parameter of the constructor at concrete inputs. -/
def parseStyleAsArray : StyleProp → List Style
  | StyleProp.array l => l
  | StyleProp.object s => [s]

/-- A configuration with every content source set: loading, text, icon, all
size and colour flags, and a content override. -/
def busyProps : Props :=
  { defaultProps with
    text := "Pay", icon := some 4, isLoading := true, small := true, medium := true,
    large := true, success := true, danger := true, ContentComponent := some 9 }

/-- A configuration with text and an icon, not loading, no content override. -/
def iconProps : Props :=
  { defaultProps with text := "Pay", icon := some 4, small := true }

/-- A configuration that asks for Enter-key activation. -/
def enterProps : Props :=
  { defaultProps with pressOnEnter := true, onPress := Callback.fn 7 }

/-- A sample value for the Enter entry of `CONST.KEYBOARD_SHORTCUTS`. -/
def enterConfig : ShortcutConfig :=
  { shortcutKey := "enter", descriptionKey := "", modifiers := [] }

/-- A listener some other subscriber holds for the same key. -/
def foreignListener : Listener :=
  { id := 1, key := "enter", callback := ListenerCallback.foreign 5, descriptionKey := "",
    modifiers := [], captureOnInputs := true, shouldBubble := false, priority := 0 }

/-- An instance constructed with one `style` prop and later handed another. -/
def staleInstance : Button :=
  (Button.constructor parseStyleAsArray 0
    { defaultProps with style := StyleProp.array [Style.caller 1] }).receiveProps
    { defaultProps with style := StyleProp.array [Style.caller 2] }

/-- An instance constructed with the props `staleInstance` has now. -/
def freshInstance : Button :=
  Button.constructor parseStyleAsArray 1
    { defaultProps with style := StyleProp.array [Style.caller 2] }

/-- Sample style definitions: property 0 is given value 1 by `buttonSuccess`
and value 2 by `buttonDanger`; nothing else is defined. -/
def sampleDefs : Style → Nat → Option Nat
  | Style.sheet StyleName.buttonSuccess, 0 => some 1
  | Style.sheet StyleName.buttonDanger, 0 => some 2
  | _, _ => none

/-- Sample style definitions in which `buttonSuccessDisabled` defines the
property that the two colour entries define: property 0 is given value 1 by
`buttonSuccess`, 2 by `buttonDanger` and 11 by `buttonSuccessDisabled`; the
other entries, `buttonDangerDisabled` among them, leave it alone. -/
def crossedDefs : Style → Nat → Option Nat
  | Style.sheet StyleName.buttonSuccess, 0 => some 1
  | Style.sheet StyleName.buttonDanger, 0 => some 2
  | Style.sheet StyleName.buttonSuccessDisabled, 0 => some 11
  | _, _ => none

/-- A disabled button with success and danger both set. -/
def disabledBothProps : Props :=
  { defaultProps with success := true, danger := true, isDisabled := true,
                      innerStyles := [Style.caller 3] }

/-! ## Content selection -/

/-- C1: when a `ContentComponent` is supplied, `renderContent` returns the
single `ContentComponent` element, whatever the loading flag, text, icon and
size or colour flags are. -/
theorem renderContent_contentComponent (this : Button) (c : Nat)
    (h : this.props.ContentComponent = some c) :
    this.renderContent = Element.contentComponent c := by
  unfold Button.renderContent
  rw [h]

/-- Witness for C1 at a loading configuration with text, icon and every flag set. -/
theorem renderContent_contentComponent_witness :
    (Button.constructor parseStyleAsArray 0 busyProps).props.ContentComponent = some 9 ∧
    (Button.constructor parseStyleAsArray 0 busyProps).renderContent
      = Element.contentComponent 9 :=
  ⟨rfl, renderContent_contentComponent _ 9 rfl⟩

/-- C2: when `isLoading` is true and there is no content override,
`renderContent` returns the `ActivityIndicator` coloured
`themeColors.textReversed`; the result does not depend on the text, the icon or
any other prop, so two such instances render the same content. -/
theorem renderContent_loading (this other : Button)
    (hc : this.props.ContentComponent = none) (hl : this.props.isLoading = true)
    (hc2 : other.props.ContentComponent = none) (hl2 : other.props.isLoading = true) :
    this.renderContent = Element.activityIndicator ThemeColor.textReversed ∧
    this.renderContent = other.renderContent := by
  have key : ∀ b : Button, b.props.ContentComponent = none → b.props.isLoading = true →
      b.renderContent = Element.activityIndicator ThemeColor.textReversed := by
    intro b h1 h2
    unfold Button.renderContent
    rw [h1]
    simp [h2]
  exact ⟨key this hc hl, by rw [key this hc hl, key other hc2 hl2]⟩

/-- Witness for C2: a loading button with text, icon and flags against a
loading button with default text and no icon. -/
theorem renderContent_loading_witness :
    (Button.constructor parseStyleAsArray 0
        { busyProps with ContentComponent := none }).renderContent
      = Element.activityIndicator ThemeColor.textReversed ∧
    (Button.constructor parseStyleAsArray 0
        { busyProps with ContentComponent := none }).renderContent
      = (Button.constructor parseStyleAsArray 1
        { defaultProps with isLoading := true }).renderContent :=
  renderContent_loading _ _ rfl rfl rfl rfl

/-- C9: with no content override and `isLoading` false, the label is a
non-selectable `Text` whose child is the configured text; with an icon the
result is a row whose first child wraps an `Icon` with that `src` and the
`small` flag and whose second child is the label, and without an icon the
result is the label alone. -/
theorem renderContent_label (this : Button)
    (hc : this.props.ContentComponent = none) (hl : this.props.isLoading = false) :
    this.textComponent = Element.text false (StyleAttr.many this.textStyle) this.props.text ∧
    (∀ src, this.props.icon = some src →
      this.renderContent =
        Element.view
          (StyleAttr.many [StyleEntry.obj (Style.sheet StyleName.flexRow),
                           StyleEntry.obj (Style.sheet StyleName.alignItemsCenter)])
          [ Element.view (StyleAttr.one (Style.sheet StyleName.mr1))
              [Element.icon src ThemeColor.heading this.props.small],
            this.textComponent ]) ∧
    (this.props.icon = none → this.renderContent = this.textComponent) := by
  refine ⟨rfl, ?_, ?_⟩
  · intro src hi
    unfold Button.renderContent
    rw [hc]
    simp [hl, hi]
  · intro hi
    unfold Button.renderContent
    rw [hc]
    simp [hl, hi]

/-- Witness for C9 at a small button with text "Pay" and an icon. -/
theorem renderContent_label_witness :
    (Button.constructor parseStyleAsArray 0 iconProps).renderContent =
      Element.view
        (StyleAttr.many [StyleEntry.obj (Style.sheet StyleName.flexRow),
                         StyleEntry.obj (Style.sheet StyleName.alignItemsCenter)])
        [ Element.view (StyleAttr.one (Style.sheet StyleName.mr1))
            [Element.icon 4 ThemeColor.heading true],
          Element.text false
            (StyleAttr.many
              [ StyleEntry.obj (Style.sheet StyleName.pointerEventsNone),
                StyleEntry.obj (Style.sheet StyleName.buttonText),
                StyleEntry.obj (Style.sheet StyleName.buttonSmallText),
                StyleEntry.jsFalse, StyleEntry.jsFalse, StyleEntry.jsFalse, StyleEntry.jsFalse ])
            "Pay" ] :=
  (renderContent_label (Button.constructor parseStyleAsArray 0 iconProps) rfl rfl).2.1 4 rfl

/-! ## Pressable attributes -/

/-- C3: the `disabled` attribute of the `Pressable` is true exactly when
`isLoading` or `isDisabled` is true; with the default configuration it is
false. -/
theorem render_disabled_iff (this : Button) :
    (this.render.disabled = true ↔
      (this.props.isLoading = true ∨ this.props.isDisabled = true)) ∧
    ∀ (parse : StyleProp → List Style) (self : Nat),
      (Button.constructor parse self defaultProps).render.disabled = false := by
  refine ⟨?_, fun _ _ => rfl⟩
  simp [Button.render]

/-- C8: the press handler yields the trace haptic pulse then `onPress(e)` when
haptic feedback is enabled and `onPress(e)` alone otherwise; the long-press
handler does the same with `onLongPress(e)`; in either trace the callback is
called once, with the event, as the last effect; press-in and press-out are the
caller's callbacks themselves. -/
theorem render_handlers (this : Button) (e : Nat) :
    this.render.onPress e =
      (if this.props.shouldEnableHapticFeedback = true
        then [Effect.hapticTrigger, Effect.call this.props.onPress (some e)]
        else [Effect.call this.props.onPress (some e)]) ∧
    this.render.onLongPress e =
      (if this.props.shouldEnableHapticFeedback = true
        then [Effect.hapticTrigger, Effect.call this.props.onLongPress (some e)]
        else [Effect.call this.props.onLongPress (some e)]) ∧
    ((this.render.onPress e).filter (fun x => x != Effect.hapticTrigger)
      = [Effect.call this.props.onPress (some e)]) ∧
    ((this.render.onLongPress e).filter (fun x => x != Effect.hapticTrigger)
      = [Effect.call this.props.onLongPress (some e)]) ∧
    (this.render.onPress e).getLast? = some (Effect.call this.props.onPress (some e)) ∧
    (this.render.onLongPress e).getLast? = some (Effect.call this.props.onLongPress (some e)) ∧
    this.render.onPressIn = this.props.onPressIn ∧
    this.render.onPressOut = this.props.onPressOut := by
  cases h : this.props.shouldEnableHapticFeedback <;>
    simp [Button.render, Button.pressHandler, Button.longPressHandler, h]

/-! ## Enter-key subscription -/

/-- Every listener of a registry carries a token below `freshId`. -/
theorem Registry.id_lt_freshId (reg : Registry) : ∀ l ∈ reg, l.id < reg.freshId := by
  induction reg with
  | nil => intro l hl; cases hl
  | cons a t ih =>
    intro l hl
    have hstep : Registry.freshId (a :: t) = max a.id (Registry.freshId t - 1) + 1 := by
      simp [Registry.freshId]
    rw [hstep]
    rcases List.mem_cons.mp hl with h | h
    · subst h
      omega
    · have := ih l h
      omega

/-- Unsubscribing the token handed out by `subscribe` undoes the subscription. -/
theorem KeyboardShortcut.unsubscribe_subscribe (reg : Registry) (key : String)
    (cb : ListenerCallback) (d : String) (ms : List String) (c b : Bool) (prio : Int) :
    KeyboardShortcut.unsubscribe (KeyboardShortcut.subscribe reg key cb d ms c b prio).1
      (KeyboardShortcut.subscribe reg key cb d ms c b prio).2 = reg := by
  simp only [KeyboardShortcut.subscribe, KeyboardShortcut.unsubscribe, List.filter_append]
  have h1 : reg.filter (fun l => l.id != reg.freshId) = reg := by
    apply List.filter_eq_self.mpr
    intro l hl
    have := Registry.id_lt_freshId reg l hl
    simp
    omega
  rw [h1]
  simp

/-- C4: for a component mounted with `pressOnEnter` set, the registered
listener runs the Enter handler on the instance as it is at the key press
(props `p`, not the props `p0` of the mount). The handler's trace is the single
call `onPress()` (no argument, no haptic pulse) when `isDisabled` and
`isLoading` are both false, and is empty when either is true; the guard holds
exactly when the `disabled` attribute of the `Pressable` is false. -/
theorem enter_handler_guard (parse : StyleProp → List Style) (enter : ShortcutConfig)
    (self : Nat) (p0 p : Props) (reg : Registry) (h : p0.pressOnEnter = true) :
    (enterListener enter reg self p0.enterKeyEventListenerPriority
      ∈ ((Button.constructor parse self p0).componentDidMount enter reg).registry) ∧
    ListenerCallback.run
        (fun i => if i = self then
          some (((Button.constructor parse self p0).componentDidMount enter reg).this.receiveProps p)
          else none)
        (enterListener enter reg self p0.enterKeyEventListenerPriority).callback
      = (if p.isDisabled = false ∧ p.isLoading = false
          then [Effect.call p.onPress none] else []) ∧
    ((p.isDisabled = false ∧ p.isLoading = false) ↔
      (((Button.constructor parse self p0).componentDidMount enter reg).this.receiveProps
        p).render.disabled = false) := by
  refine ⟨?_, ?_, ?_⟩
  · simp [Button.componentDidMount, Button.constructor, h, KeyboardShortcut.subscribe,
      enterListener]
  · cases hd : p.isDisabled <;> cases hl : p.isLoading <;>
      simp [ListenerCallback.run, enterListener, Button.enterKeyHandler, Button.receiveProps,
        hd, hl]
  · cases hd : p.isDisabled <;> cases hl : p.isLoading <;>
      simp [Button.render, Button.receiveProps, hd, hl]

/-- Witness for C4: mounted enabled, disabled by the time the key is pressed. -/
theorem enter_handler_guard_witness :
    enterProps.pressOnEnter = true ∧
    ListenerCallback.run
        (fun i => if i = 3 then
          some (((Button.constructor parseStyleAsArray 3 enterProps).componentDidMount
              enterConfig []).this.receiveProps { enterProps with isDisabled := true })
          else none)
        (enterListener enterConfig [] 3 enterProps.enterKeyEventListenerPriority).callback
      = [] :=
  ⟨rfl, (enter_handler_guard parseStyleAsArray enterConfig 3 enterProps
    { enterProps with isDisabled := true } [] rfl).2.1⟩

/-- C5: over the registry model, for a configuration with `pressOnEnter` set,
mounting and then unmounting (whatever the props are by then) restores the
registry: unmount calls the stored unsubscribe function, no listener carries
the token handed out at mount, a registry free of this instance's Enter
listener stays free of it, and a key press dispatched afterwards runs what it
would have run before the mount and never the listener of the mount. -/
theorem mount_unmount_restores (parse : StyleProp → List Style) (enter : ShortcutConfig)
    (self : Nat) (p0 p : Props) (reg : Registry) (live : Nat → Option Button) (key : String)
    (h : p0.pressOnEnter = true) :
    ((Button.constructor parse self p0).componentDidMount enter reg).this.unsubscribe
      = some reg.freshId ∧
    (Button.mountThenUnmount enter (Button.constructor parse self p0) p reg).calls
      = [RegistryCall.unsubscribe reg.freshId] ∧
    (Button.mountThenUnmount enter (Button.constructor parse self p0) p reg).registry = reg ∧
    (∀ l ∈ (Button.mountThenUnmount enter (Button.constructor parse self p0) p reg).registry,
      l.id ≠ reg.freshId) ∧
    ((∀ l ∈ reg, l.callback ≠ ListenerCallback.buttonEnter self) →
      ∀ l ∈ (Button.mountThenUnmount enter (Button.constructor parse self p0) p reg).registry,
        l.callback ≠ ListenerCallback.buttonEnter self) ∧
    KeyboardShortcut.dispatch
        (Button.mountThenUnmount enter (Button.constructor parse self p0) p reg).registry live key
      = KeyboardShortcut.dispatch reg live key ∧
    ∀ x ∈ KeyboardShortcut.dispatch
        (Button.mountThenUnmount enter (Button.constructor parse self p0) p reg).registry live key,
      x.1 ≠ reg.freshId := by
  have hm : (Button.constructor parse self p0).componentDidMount enter reg =
      { this := { Button.constructor parse self p0 with
                  unsubscribe := some (KeyboardShortcut.subscribe reg enter.shortcutKey
                    (ListenerCallback.buttonEnter self) enter.descriptionKey enter.modifiers
                    true false p0.enterKeyEventListenerPriority).2 },
        registry := (KeyboardShortcut.subscribe reg enter.shortcutKey
                    (ListenerCallback.buttonEnter self) enter.descriptionKey enter.modifiers
                    true false p0.enterKeyEventListenerPriority).1,
        calls := [RegistryCall.subscribe enter.shortcutKey (ListenerCallback.buttonEnter self)
          enter.descriptionKey enter.modifiers true false p0.enterKeyEventListenerPriority] } := by
    simp [Button.componentDidMount, Button.constructor, h]
  have hreg : (Button.mountThenUnmount enter (Button.constructor parse self p0) p reg).registry
      = reg := by
    unfold Button.mountThenUnmount
    rw [hm]
    simp only [Button.componentWillUnmount, Button.receiveProps]
    exact KeyboardShortcut.unsubscribe_subscribe reg _ _ _ _ _ _ _
  have hfresh : ∀ l ∈ reg, l.id ≠ reg.freshId := by
    intro l hl
    have := Registry.id_lt_freshId reg l hl
    omega
  refine ⟨?_, ?_, hreg, ?_, ?_, ?_, ?_⟩
  · rw [hm]
    simp [KeyboardShortcut.subscribe]
  · unfold Button.mountThenUnmount
    rw [hm]
    simp [Button.componentWillUnmount, Button.receiveProps, KeyboardShortcut.subscribe]
  · rw [hreg]
    exact hfresh
  · rw [hreg]
    exact fun hfree => hfree
  · rw [hreg]
  · rw [hreg]
    intro x hx
    simp only [KeyboardShortcut.dispatch, List.mem_map, List.mem_filter] at hx
    obtain ⟨l, ⟨hl, _⟩, rfl⟩ := hx
    exact hfresh l hl

/-- Witness for C5: a button mounted into a registry that holds one foreign
Enter listener, disabled by the time it is unmounted. -/
theorem mount_unmount_restores_witness :
    enterProps.pressOnEnter = true ∧
    (Button.mountThenUnmount enterConfig (Button.constructor parseStyleAsArray 3 enterProps)
      { enterProps with isDisabled := true } [foreignListener]).registry = [foreignListener] ∧
    KeyboardShortcut.dispatch
        (Button.mountThenUnmount enterConfig (Button.constructor parseStyleAsArray 3 enterProps)
          { enterProps with isDisabled := true } [foreignListener]).registry
        (fun _ => none) "enter"
      = [(1, [Effect.foreign 5])] :=
  ⟨rfl,
   (mount_unmount_restores parseStyleAsArray enterConfig 3 enterProps
      { enterProps with isDisabled := true } [foreignListener] (fun _ => none) "enter" rfl).2.2.1,
   (mount_unmount_restores parseStyleAsArray enterConfig 3 enterProps
      { enterProps with isDisabled := true } [foreignListener] (fun _ => none) "enter"
      rfl).2.2.2.2.2.1.trans (by decide)⟩

/-- C6: mounting subscribes exactly when `pressOnEnter` is true at mount. When
true, the one registry call is a subscription for the shortcut key of the Enter
configuration with the caller's priority, and the registry grows by that one
listener; when false, mount makes no call and leaves the registry as it was,
and `componentWillUnmount` makes no call either. The default priority is 0. -/
theorem mount_subscribes_iff (parse : StyleProp → List Style) (enter : ShortcutConfig)
    (self : Nat) (p p2 : Props) (reg : Registry) :
    (((Button.constructor parse self p).componentDidMount enter reg).calls ≠ [] ↔
      p.pressOnEnter = true) ∧
    ((Button.constructor parse self p).componentDidMount enter reg).calls =
      (if p.pressOnEnter = true then
        [RegistryCall.subscribe enter.shortcutKey (ListenerCallback.buttonEnter self)
          enter.descriptionKey enter.modifiers true false p.enterKeyEventListenerPriority]
       else []) ∧
    ((Button.constructor parse self p).componentDidMount enter reg).registry =
      (if p.pressOnEnter = true then
        reg ++ [enterListener enter reg self p.enterKeyEventListenerPriority]
       else reg) ∧
    (enterListener enter reg self p.enterKeyEventListenerPriority).key = enter.shortcutKey ∧
    (enterListener enter reg self p.enterKeyEventListenerPriority).priority
      = p.enterKeyEventListenerPriority ∧
    (p.pressOnEnter = false →
      (Button.mountThenUnmount enter (Button.constructor parse self p) p2 reg).calls = [] ∧
      (Button.mountThenUnmount enter (Button.constructor parse self p) p2 reg).registry = reg) ∧
    defaultProps.enterKeyEventListenerPriority = 0 := by
  cases h : p.pressOnEnter <;>
    simp [Button.componentDidMount, Button.componentWillUnmount, Button.constructor,
      Button.receiveProps, Button.mountThenUnmount, KeyboardShortcut.subscribe, enterListener,
      defaultProps, h]

/-! ## Style order and precedence -/

/-- Skipping the non-object slots of a list of objects gives the list back. -/
theorem applied_map_obj (l : List Style) : applied (l.map StyleEntry.obj) = l := by
  induction l with
  | nil => rfl
  | cons a t ih =>
    simp only [applied, List.map_cons, List.filterMap_cons] at ih ⊢
    rw [ih]

/-- The applied entries of the `OpacityView` array: the fixed order filtered
by the entry conditions, then `innerStyles`. -/
theorem applied_opacityViewStyle (this : Button) (hovered : Bool) :
    applied (this.opacityViewStyle hovered) =
      (opacityViewOrder.filter (this.opacityViewCondition hovered)).map Style.sheet
        ++ this.props.innerStyles := by
  have h := applied_map_obj this.props.innerStyles
  unfold applied at h
  simp only [Button.opacityViewStyle, applied, List.filterMap_append, h]
  congr 1
  obtain ⟨self, props, additionalStyles, unsubscribe⟩ := this
  obtain ⟨text, icon, small, large, medium, isLoading, isDisabled, onPress, onLongPress,
    onPressIn, onPressOut, pressOnEnter, priority, style, innerStyles, textStyles, success,
    danger, content, noRight, noLeft, haptic⟩ := props
  cases small <;> cases medium <;> cases large <;> cases success <;> cases danger <;>
    cases isDisabled <;> cases hovered <;> cases noRight <;> cases noLeft <;> rfl

/-- The applied entries of the label array: the fixed order filtered by the
entry conditions, then `textStyles`. -/
theorem applied_textStyle (this : Button) :
    applied this.textStyle =
      (textOrder.filter this.textCondition).map Style.sheet ++ this.props.textStyles := by
  have h := applied_map_obj this.props.textStyles
  unfold applied at h
  simp only [Button.textStyle, applied, List.filterMap_append, h]
  congr 1
  obtain ⟨self, props, additionalStyles, unsubscribe⟩ := this
  obtain ⟨text, icon, small, large, medium, isLoading, isDisabled, onPress, onLongPress,
    onPressIn, onPressOut, pressOnEnter, priority, style, innerStyles, textStyles, success,
    danger, content, noRight, noLeft, haptic⟩ := props
  cases small <;> cases medium <;> cases large <;> cases success <;> cases danger <;> rfl

/-- Folding the resolution step from any start over a list that reaches an
entry defining the property forgets what came before that entry. -/
theorem resolve_foldl_split (defs : Style → Nat → Option Nat) (p : Nat) (d : Style) (v : Nat)
    (hd : defs d p = some v) (pre post : List Style) (acc : Option Nat) :
    (pre ++ d :: post).foldl (fun acc s => match defs s p with
        | some v => some v
        | none => acc) acc
      = post.foldl (fun acc s => match defs s p with
        | some v => some v
        | none => acc) (some v) := by
  rw [List.foldl_append, List.foldl_cons]
  simp only [hd]

/-- Entries that do not define the property leave the running value alone. -/
theorem resolve_foldl_undefined (defs : Style → Nat → Option Nat) (p : Nat)
    (post : List Style) (hpost : ∀ x ∈ post, defs x p = none) (acc : Option Nat) :
    post.foldl (fun acc s => match defs s p with
        | some v => some v
        | none => acc) acc = acc := by
  induction post generalizing acc with
  | nil => rfl
  | cons x t ih =>
    rw [List.foldl_cons, hpost x (List.mem_cons_self x t)]
    exact ih (fun y hy => hpost y (List.mem_cons_of_mem x hy)) acc

/-- An entry placed after another one wins over it. -/
theorem winsOver_of_split (defs : Style → Nat → Option Nat) (pre post : List Style)
    (s d : Style) (hs : s ∈ pre) : WinsOver defs (pre ++ d :: post) s d := by
  refine ⟨pre, post, rfl, hs, ?_⟩
  intro p v hv
  have hfull : resolve defs (pre ++ d :: post) p
      = post.foldl (fun acc s => match defs s p with
        | some v => some v
        | none => acc) (some v) := by
    unfold resolve
    exact resolve_foldl_split defs p d v hv pre post none
  refine ⟨?_, ?_, ?_⟩
  · unfold resolve
    rw [resolve_foldl_split defs p d v hv pre [] none]
    rfl
  · rw [hfull]
    have := resolve_foldl_split defs p d v hv [] post none
    unfold resolve
    simpa using this.symm
  · intro hpost
    rw [hfull]
    exact resolve_foldl_undefined defs p post hpost (some v)

/-- A fixed order splits at any of its entries. -/
theorem entries_split (order : List StyleName) (n : StyleName) (hn : n ∈ order) :
    order = entriesBefore order n ++ n :: entriesAfter order n := by
  induction order with
  | nil => cases hn
  | cons x xs ih =>
    by_cases hx : x = n
    · subst hx
      simp [entriesBefore, entriesAfter]
    · have hmem : n ∈ xs := by
        rcases List.mem_cons.mp hn with h | h
        · exact absurd h.symm hx
        · exact h
      simp only [entriesBefore, entriesAfter, hx, if_false, List.cons_append]
      rw [← ih hmem]

/-- The filtered order, followed by the caller's list, splits at any entry
that passes the filter. -/
theorem filtered_split (order : List StyleName) (c : StyleName → Bool) (n : StyleName)
    (tail : List Style) (hn : n ∈ order) (hc : c n = true) :
    (order.filter c).map Style.sheet ++ tail =
      ((entriesBefore order n).filter c).map Style.sheet
        ++ Style.sheet n :: (((entriesAfter order n).filter c).map Style.sheet ++ tail) := by
  conv_lhs => rw [entries_split order n hn]
  simp [List.filter_append, List.filter_cons, hc]

/-- The value an applied entry gives a property is the resolved value unless
an applied entry after it or a caller style defines the property too; in any
case the resolved value is decided by the entry and what follows it. -/
theorem resolve_filtered (defs : Style → Nat → Option Nat) (order : List StyleName)
    (c : StyleName → Bool) (n : StyleName) (tail : List Style) (hn : n ∈ order)
    (hc : c n = true) (p v : Nat) (hv : defs (Style.sheet n) p = some v) :
    resolve defs ((order.filter c).map Style.sheet ++ tail) p =
      resolve defs (Style.sheet n :: (((entriesAfter order n).filter c).map Style.sheet ++ tail)) p ∧
    ((∀ m ∈ entriesAfter order n, c m = true → defs (Style.sheet m) p = none) →
      (∀ x ∈ tail, defs x p = none) →
      resolve defs ((order.filter c).map Style.sheet ++ tail) p = some v) := by
  have hsplit := filtered_split order c n tail hn hc
  have hfull : resolve defs ((order.filter c).map Style.sheet ++ tail) p
      = (((entriesAfter order n).filter c).map Style.sheet ++ tail).foldl
          (fun acc s => match defs s p with
            | some v => some v
            | none => acc) (some v) := by
    rw [hsplit]
    unfold resolve
    exact resolve_foldl_split defs p _ v hv _ _ none
  refine ⟨?_, ?_⟩
  · rw [hfull]
    have := resolve_foldl_split defs p _ v hv []
      (((entriesAfter order n).filter c).map Style.sheet ++ tail) none
    unfold resolve
    simpa using this.symm
  · intro hafter htail
    rw [hfull]
    apply resolve_foldl_undefined
    intro x hx
    rcases List.mem_append.mp hx with h | h
    · obtain ⟨m, hm, rfl⟩ := List.mem_map.mp h
      have hm2 := List.mem_filter.mp hm
      exact hafter m hm2.1 hm2.2
    · exact htail x h

/-- Two entries of a fixed order that both pass the filter keep their order. -/
theorem winsOver_filter (defs : Style → Nat → Option Nat) (order pre post : List StyleName)
    (c : StyleName → Bool) (S D : StyleName) (tail : List Style)
    (hsplit : order = pre ++ D :: post) (hS : S ∈ pre) (hcS : c S = true) (hcD : c D = true) :
    WinsOver defs ((order.filter c).map Style.sheet ++ tail) (Style.sheet S) (Style.sheet D) := by
  have hl : (order.filter c).map Style.sheet ++ tail =
      (pre.filter c).map Style.sheet ++ Style.sheet D :: ((post.filter c).map Style.sheet ++ tail) := by
    rw [hsplit]
    simp [List.filter_append, List.filter_cons, hcD]
  rw [hl]
  apply winsOver_of_split
  exact List.mem_map.mpr ⟨S, List.mem_filter.mpr ⟨hS, hcS⟩, rfl⟩

/-- The style slots the rendered `OpacityView` carries. -/
theorem render_children_styleEntries (this : Button) (pressed hovered : Bool) :
    (this.render.children pressed hovered).styleEntries = this.opacityViewStyle hovered := rfl

/-- The `Text` nodes of the rendered tree: the label when there is neither a
content override nor a loading state, none otherwise. -/
theorem render_children_texts (this : Button) (pressed hovered : Bool) :
    (this.render.children pressed hovered).texts =
      (match this.props.ContentComponent with
        | some _ => []
        | none => if this.props.isLoading = true then [] else [this.textComponent]) := by
  simp only [Button.render, Element.texts, Button.renderContent]
  cases this.props.ContentComponent with
  | some c => simp [Element.texts]
  | none =>
    cases this.props.isLoading with
    | true => simp [Element.texts]
    | false =>
      cases this.props.icon with
      | some src =>
        simp [Element.texts, Element.textsOfList, Button.textComponent]
      | none => simp [Element.texts, Button.textComponent]

/-- Every `Text` node of the rendered tree is the label. -/
theorem render_children_texts_eq (this : Button) (pressed hovered : Bool) :
    ∀ t ∈ (this.render.children pressed hovered).texts, t = this.textComponent := by
  intro t ht
  rw [render_children_texts] at ht
  cases hc : this.props.ContentComponent with
  | some c => simp [hc] at ht
  | none =>
    cases hl : this.props.isLoading with
    | true => simp [hc, hl] at ht
    | false => simpa [hc, hl] using ht

/-- C7, as amended: in the tree `render` returns, the applied entries of the
`OpacityView` style array are the entries of the fixed order button, small,
medium, large, success, danger, successDisabled, dangerDisabled, disable,
successHovered, dangerHovered, noRightBorderRadius, noLeftBorderRadius whose
condition holds, in that order, followed by `innerStyles`; likewise every
`Text` node carries pointerEventsNone, buttonText, then small, medium, large,
success, danger, followed by `textStyles`. Under last-entry-wins resolution the
value an applied entry gives a property is the resolved value unless an applied
entry placed after it, or a caller style, defines that property too, and the
resolved value is always decided by that entry and those after it. With success
and danger both set each danger entry comes after, and overrides, the matching
success entry; with several size flags set all their entries are applied, large
overriding medium overriding small. -/
theorem style_order_precedence (this : Button) (pressed hovered : Bool)
    (defs : Style → Nat → Option Nat) :
    (applied (this.render.children pressed hovered).styleEntries =
      (opacityViewOrder.filter (this.opacityViewCondition hovered)).map Style.sheet
        ++ this.props.innerStyles) ∧
    (∀ t ∈ (this.render.children pressed hovered).texts,
      applied t.styleEntries =
        (textOrder.filter this.textCondition).map Style.sheet ++ this.props.textStyles) ∧
    (this.props.ContentComponent = none → this.props.isLoading = false →
      ∃ l, (this.render.children pressed hovered).texts = [Element.text false (StyleAttr.many l) this.props.text]) ∧
    (opacityViewOrder.filter (this.opacityViewCondition hovered)).Sublist opacityViewOrder ∧
    (textOrder.filter this.textCondition).Sublist textOrder ∧
    (∀ n ∈ opacityViewOrder,
      (n ∈ opacityViewOrder.filter (this.opacityViewCondition hovered) ↔
        this.opacityViewCondition hovered n = true)) ∧
    (∀ n ∈ textOrder,
      (n ∈ textOrder.filter this.textCondition ↔ this.textCondition n = true)) ∧
    (∀ n ∈ opacityViewOrder, this.opacityViewCondition hovered n = true →
      ∀ p v, defs (Style.sheet n) p = some v →
        resolve defs (applied (this.render.children pressed hovered).styleEntries) p =
          resolve defs (Style.sheet n ::
            (((entriesAfter opacityViewOrder n).filter
                (this.opacityViewCondition hovered)).map Style.sheet
              ++ this.props.innerStyles)) p ∧
        ((∀ m ∈ entriesAfter opacityViewOrder n, this.opacityViewCondition hovered m = true →
            defs (Style.sheet m) p = none) →
          (∀ x ∈ this.props.innerStyles, defs x p = none) →
          resolve defs (applied (this.render.children pressed hovered).styleEntries) p = some v)) ∧
    (∀ t ∈ (this.render.children pressed hovered).texts, ∀ n ∈ textOrder, this.textCondition n = true →
      ∀ p v, defs (Style.sheet n) p = some v →
        resolve defs (applied t.styleEntries) p =
          resolve defs (Style.sheet n ::
            (((entriesAfter textOrder n).filter this.textCondition).map Style.sheet
              ++ this.props.textStyles)) p ∧
        ((∀ m ∈ entriesAfter textOrder n, this.textCondition m = true →
            defs (Style.sheet m) p = none) →
          (∀ x ∈ this.props.textStyles, defs x p = none) →
          resolve defs (applied t.styleEntries) p = some v)) ∧
    (this.props.success = true → this.props.danger = true →
      WinsOver defs (applied (this.render.children pressed hovered).styleEntries)
        (Style.sheet StyleName.buttonSuccess) (Style.sheet StyleName.buttonDanger) ∧
      (this.props.isDisabled = true →
        WinsOver defs (applied (this.render.children pressed hovered).styleEntries)
          (Style.sheet StyleName.buttonSuccessDisabled)
          (Style.sheet StyleName.buttonDangerDisabled)) ∧
      (hovered = true →
        WinsOver defs (applied (this.render.children pressed hovered).styleEntries)
          (Style.sheet StyleName.buttonSuccessHovered)
          (Style.sheet StyleName.buttonDangerHovered)) ∧
      (∀ t ∈ (this.render.children pressed hovered).texts,
        WinsOver defs (applied t.styleEntries)
          (Style.sheet StyleName.buttonSuccessText) (Style.sheet StyleName.buttonDangerText))) ∧
    (this.props.small = true → this.props.medium = true →
      WinsOver defs (applied (this.render.children pressed hovered).styleEntries)
        (Style.sheet StyleName.buttonSmall) (Style.sheet StyleName.buttonMedium) ∧
      (∀ t ∈ (this.render.children pressed hovered).texts,
        WinsOver defs (applied t.styleEntries)
          (Style.sheet StyleName.buttonSmallText) (Style.sheet StyleName.buttonMediumText))) ∧
    (this.props.medium = true → this.props.large = true →
      WinsOver defs (applied (this.render.children pressed hovered).styleEntries)
        (Style.sheet StyleName.buttonMedium) (Style.sheet StyleName.buttonLarge) ∧
      (∀ t ∈ (this.render.children pressed hovered).texts,
        WinsOver defs (applied t.styleEntries)
          (Style.sheet StyleName.buttonMediumText) (Style.sheet StyleName.buttonLargeText))) ∧
    (this.props.small = true → this.props.large = true →
      WinsOver defs (applied (this.render.children pressed hovered).styleEntries)
        (Style.sheet StyleName.buttonSmall) (Style.sheet StyleName.buttonLarge) ∧
      (∀ t ∈ (this.render.children pressed hovered).texts,
        WinsOver defs (applied t.styleEntries)
          (Style.sheet StyleName.buttonSmallText) (Style.sheet StyleName.buttonLargeText))) := by
  have hO : applied (this.render.children pressed hovered).styleEntries =
      (opacityViewOrder.filter (this.opacityViewCondition hovered)).map Style.sheet
        ++ this.props.innerStyles := by
    rw [render_children_styleEntries]
    exact applied_opacityViewStyle this hovered
  have hT : ∀ t ∈ (this.render.children pressed hovered).texts,
      applied t.styleEntries =
        (textOrder.filter this.textCondition).map Style.sheet ++ this.props.textStyles := by
    intro t ht
    rw [render_children_texts_eq this pressed hovered t ht]
    exact applied_textStyle this
  refine ⟨hO, hT, ?_, List.filter_sublist _, List.filter_sublist _, ?_, ?_, ?_, ?_, ?_, ?_, ?_,
    ?_⟩
  · intro hc hl
    refine ⟨this.textStyle, ?_⟩
    rw [render_children_texts]
    simp [hc, hl, Button.textComponent]
  · intro n hn
    simp [List.mem_filter, hn]
  · intro n hn
    simp [List.mem_filter, hn]
  · intro n hn hc p v hv
    rw [hO]
    exact resolve_filtered defs opacityViewOrder _ n _ hn hc p v hv
  · intro t ht n hn hc p v hv
    rw [hT t ht]
    exact resolve_filtered defs textOrder _ n _ hn hc p v hv
  · intro hs hd
    rw [hO]
    refine ⟨?_, ?_, ?_, ?_⟩
    · exact winsOver_filter defs opacityViewOrder
        [StyleName.button, StyleName.buttonSmall, StyleName.buttonMedium, StyleName.buttonLarge,
          StyleName.buttonSuccess]
        _ _ StyleName.buttonSuccess StyleName.buttonDanger _ rfl (by simp)
        (by simp [Button.opacityViewCondition, hs]) (by simp [Button.opacityViewCondition, hd])
    · intro hdis
      exact winsOver_filter defs opacityViewOrder
        [StyleName.button, StyleName.buttonSmall, StyleName.buttonMedium, StyleName.buttonLarge,
          StyleName.buttonSuccess, StyleName.buttonDanger, StyleName.buttonSuccessDisabled]
        _ _ StyleName.buttonSuccessDisabled StyleName.buttonDangerDisabled _ rfl (by simp)
        (by simp [Button.opacityViewCondition, hs, hdis])
        (by simp [Button.opacityViewCondition, hd, hdis])
    · intro hh
      exact winsOver_filter defs opacityViewOrder
        [StyleName.button, StyleName.buttonSmall, StyleName.buttonMedium, StyleName.buttonLarge,
          StyleName.buttonSuccess, StyleName.buttonDanger, StyleName.buttonSuccessDisabled,
          StyleName.buttonDangerDisabled, StyleName.buttonDisable, StyleName.buttonSuccessHovered]
        _ _ StyleName.buttonSuccessHovered StyleName.buttonDangerHovered _ rfl (by simp)
        (by simp [Button.opacityViewCondition, hs, hh])
        (by simp [Button.opacityViewCondition, hd, hh])
    · intro t ht
      rw [hT t ht]
      exact winsOver_filter defs textOrder
        [StyleName.pointerEventsNone, StyleName.buttonText, StyleName.buttonSmallText,
          StyleName.buttonMediumText, StyleName.buttonLargeText, StyleName.buttonSuccessText]
        _ _ StyleName.buttonSuccessText StyleName.buttonDangerText _ rfl (by simp)
        (by simp [Button.textCondition, hs]) (by simp [Button.textCondition, hd])
  · intro hs hm
    rw [hO]
    refine ⟨?_, ?_⟩
    · exact winsOver_filter defs opacityViewOrder
        [StyleName.button, StyleName.buttonSmall]
        _ _ StyleName.buttonSmall StyleName.buttonMedium _ rfl (by simp)
        (by simp [Button.opacityViewCondition, hs]) (by simp [Button.opacityViewCondition, hm])
    · intro t ht
      rw [hT t ht]
      exact winsOver_filter defs textOrder
        [StyleName.pointerEventsNone, StyleName.buttonText, StyleName.buttonSmallText]
        _ _ StyleName.buttonSmallText StyleName.buttonMediumText _ rfl (by simp)
        (by simp [Button.textCondition, hs]) (by simp [Button.textCondition, hm])
  · intro hm hl
    rw [hO]
    refine ⟨?_, ?_⟩
    · exact winsOver_filter defs opacityViewOrder
        [StyleName.button, StyleName.buttonSmall, StyleName.buttonMedium]
        _ _ StyleName.buttonMedium StyleName.buttonLarge _ rfl (by simp)
        (by simp [Button.opacityViewCondition, hm]) (by simp [Button.opacityViewCondition, hl])
    · intro t ht
      rw [hT t ht]
      exact winsOver_filter defs textOrder
        [StyleName.pointerEventsNone, StyleName.buttonText, StyleName.buttonSmallText,
          StyleName.buttonMediumText]
        _ _ StyleName.buttonMediumText StyleName.buttonLargeText _ rfl (by simp)
        (by simp [Button.textCondition, hm]) (by simp [Button.textCondition, hl])
  · intro hs hl
    rw [hO]
    refine ⟨?_, ?_⟩
    · exact winsOver_filter defs opacityViewOrder
        [StyleName.button, StyleName.buttonSmall, StyleName.buttonMedium]
        _ _ StyleName.buttonSmall StyleName.buttonLarge _ rfl (by simp)
        (by simp [Button.opacityViewCondition, hs]) (by simp [Button.opacityViewCondition, hl])
    · intro t ht
      rw [hT t ht]
      exact winsOver_filter defs textOrder
        [StyleName.pointerEventsNone, StyleName.buttonText, StyleName.buttonSmallText,
          StyleName.buttonMediumText]
        _ _ StyleName.buttonSmallText StyleName.buttonLargeText _ rfl (by simp)
        (by simp [Button.textCondition, hs]) (by simp [Button.textCondition, hl])

/-- Witness for C7: a disabled, hovered button with success and danger both
set; in the rendered `OpacityView` array `buttonDanger` comes after
`buttonSuccess` and overrides it. -/
theorem style_order_precedence_witness :
    WinsOver sampleDefs
      (applied (((Button.constructor parseStyleAsArray 0 disabledBothProps).render.children
        false true).styleEntries))
      (Style.sheet StyleName.buttonSuccess) (Style.sheet StyleName.buttonDanger) :=
  ((style_order_precedence (Button.constructor parseStyleAsArray 0 disabledBothProps)
    false true sampleDefs).2.2.2.2.2.2.2.2.2.1 rfl rfl).1

/-- C7 as stated fails: for a disabled button with success and danger both
set, `buttonSuccessDisabled` is applied after `buttonDanger`, so for a property
that those two entries define and `buttonDangerDisabled` does not, the resolved
value of the rendered `OpacityView` array is the one the success entry gives
and is the value of none of the danger entries. -/
theorem danger_value_can_lose :
    disabledBothProps.success = true ∧ disabledBothProps.danger = true ∧
    applied (((Button.constructor parseStyleAsArray 0 disabledBothProps).render.children
        false false).styleEntries)
      = [ Style.sheet StyleName.button, Style.sheet StyleName.buttonSuccess,
          Style.sheet StyleName.buttonDanger, Style.sheet StyleName.buttonSuccessDisabled,
          Style.sheet StyleName.buttonDangerDisabled, Style.caller 3 ] ∧
    crossedDefs (Style.sheet StyleName.buttonDanger) 0 = some 2 ∧
    crossedDefs (Style.sheet StyleName.buttonSuccessDisabled) 0 = some 11 ∧
    resolve crossedDefs
      (applied (((Button.constructor parseStyleAsArray 0 disabledBothProps).render.children
        false false).styleEntries)) 0 = some 11 ∧
    (∀ d ∈ [StyleName.buttonDanger, StyleName.buttonDangerDisabled,
            StyleName.buttonDangerHovered],
      resolve crossedDefs
        (applied (((Button.constructor parseStyleAsArray 0 disabledBothProps).render.children
          false false).styleEntries)) 0 ≠ crossedDefs (Style.sheet d) 0) := by
  decide

/-- Last-entry-wins on a concrete list: with both colour entries applied and
the button enabled, the resolved value of the shared property is the one
`buttonDanger` gives. -/
theorem resolve_danger_example :
    resolve sampleDefs
      (applied (((Button.constructor parseStyleAsArray 0
        { defaultProps with success := true, danger := true }).render.children
          false false).styleEntries)) 0
      = some 2 := by
  decide

/-! ## Stale `style` prop -/

/-- C10 fails on the code: two instances with equal current props render
`Pressable` elements with different style lists, because `render` spreads the
`additionalStyles` cached by the constructor; the instance constructed with
another `style` prop still shows that earlier value after the local cursor
style. -/
theorem render_uses_constructor_style :
    staleInstance.props = freshInstance.props ∧
    staleInstance.render.style =
      StyleAttr.many [StyleEntry.obj Style.emptyObject, StyleEntry.obj (Style.caller 1)] ∧
    freshInstance.render.style =
      StyleAttr.many [StyleEntry.obj Style.emptyObject, StyleEntry.obj (Style.caller 2)] ∧
    staleInstance.render.style ≠ freshInstance.render.style ∧
    (∀ pressed hovered,
      staleInstance.render.children pressed hovered
        = freshInstance.render.children pressed hovered) := by
  refine ⟨by decide, by decide, by decide, by decide, ?_⟩
  intro pressed hovered
  rfl

end ButtonJs
